import Mathlib

/-!
Verification development for the fixture generator `example/testdata.py`.

The script enumerates 12 numpy element types; for each it builds
`np.arange(8, dtype=dtype)`, optionally reshapes it to a 4×2 array with a
given memory order, and saves each result with `np.save` under the name
`{dtype_str}_{ii}.npy` in the directory `data/` (created with
`mkdir(exist_ok=True)`).

The embedding below models the element types, the arrays the script builds,
the `.npy` serialization format (version 1.0: magic, header dictionary padded
to a 64-byte boundary, then the raw little-endian element bytes in memory
order), and the run as a sequence of writes against an abstract filesystem.
-/

namespace Testdata

/-- The 12 element types of `dtype_list` in `testdata.py`, in source order. -/
inductive Dtype where
  | int8 | int16 | int32 | int64
  | uint8 | uint16 | uint32 | uint64
  | float32 | float64
  | complex64 | complex128
deriving DecidableEq, Repr, Fintype

open Dtype

/-- The list `dtype_list` of `testdata.py` (lines 9–22), in source order. -/
def dtype_list : List Dtype :=
  [int8, int16, int32, int64, uint8, uint16, uint32, uint64,
   float32, float64, complex64, complex128]

/-- The numpy kind character of the type: i, u, f or c. -/
def kindStr : Dtype → String
  | int8 | int16 | int32 | int64 => "i"
  | uint8 | uint16 | uint32 | uint64 => "u"
  | float32 | float64 => "f"
  | complex64 | complex128 => "c"

/-- The element width in bytes (numpy itemsize). -/
def itemsize : Dtype → Nat
  | int8 => 1 | int16 => 2 | int32 => 4 | int64 => 8
  | uint8 => 1 | uint16 => 2 | uint32 => 4 | uint64 => 8
  | float32 => 4 | float64 => 8
  | complex64 => 8 | complex128 => 16

/-- Models `np.dtype(dtype).str` on a little-endian platform: a byte-order
character (`|` for 1-byte types, `<` otherwise), the kind character, and the
itemsize in decimal. -/
def npDtypeStr (d : Dtype) : String :=
  (if itemsize d == 1 then "|" else "<") ++ kindStr d ++ toString (itemsize d)

/-- `dtype_str = np.dtype(dtype).str[1:]` (line 26 of `testdata.py`). -/
def dtype_str (d : Dtype) : String := (npDtypeStr d).drop 1

/-- An in-memory numpy array as the script builds it.  `buffer` holds the
logical element values (naturals: the script only ever stores 0..7, which
every listed dtype represents exactly; the dtype encoding is applied at
serialization time).  `buffer` is listed in memory order; `fortranOrder`
records whether memory order is column-major. -/
structure NDArray where
  dtype : Dtype
  shape : List Nat
  fortranOrder : Bool
  buffer : List Nat
deriving DecidableEq, Repr

/-- `np.arange(8, dtype=dtype)` (line 30): a 1-D, C-contiguous array holding
0,1,...,7 cast into `dtype` (the cast is exact for these values; see the
round-trip theorem for C8). -/
def arange8 (d : Dtype) : NDArray :=
  { dtype := d, shape := [8], fortranOrder := false, buffer := List.range 8 }

/-- `data.reshape(4, 2, order=order)` (line 34) applied to the 1-D contiguous
`arange8` array.  A 1-D contiguous buffer is both C- and F-contiguous, so for
either order numpy returns a view over the same buffer: the shape becomes
(4,2) and the memory order becomes the requested one. -/
def reshape42 (a : NDArray) (order : String) : NDArray :=
  { a with shape := [4, 2], fortranOrder := order == "F" }

/-- The array written on a given loop iteration: the base sequence, reshaped
to (4,2) when `dims = 2` (lines 30–34). -/
def makeArray (d : Dtype) (dims : Nat) (order : String) : NDArray :=
  let data := arange8 d
  if dims == 2 then reshape42 data order else data

/-- The value at row `i`, column `j` of a (4,2) array: column-major memory
holds element (i,j) at offset `i + 4*j`, row-major at `2*i + j`. -/
def NDArray.at2 (a : NDArray) (i j : Nat) : Option Nat :=
  if a.fortranOrder then a.buffer[i + 4 * j]? else a.buffer[2 * i + j]?

/-- The logical elements of the array in row-major (reading) order:
the buffer itself for a 1-D array, the rows concatenated for a (4,2) array. -/
def NDArray.elems (a : NDArray) : List Nat :=
  match a.shape with
  | [_, _] =>
      (List.range 4).flatMap (fun i => (List.range 2).map (fun j => (a.at2 i j).getD 0))
  | _ => a.buffer

/-- Little-endian byte encoding of `v % 2^(8*w)` on `w` bytes. -/
def leBytes (w v : Nat) : List Nat :=
  (List.range w).map (fun i => v / 256 ^ i % 256)

/-- Floor of the base-2 logarithm, by structural recursion on a fuel bound
(`n` itself suffices as fuel since `n < 2^n`). -/
def log2f (n : Nat) : Nat := go n n
where
  go : Nat → Nat → Nat
  | 0, _ => 0
  | _, 0 => 0
  | fuel + 1, m => if m < 2 then 0 else go fuel (m / 2) + 1

/-- IEEE-754 binary bit pattern (as a natural) of the nonnegative integer `k`,
for a format with `mb` mantissa bits and exponent bias `bias`.  Exact for
`k < 2^(mb+1)`; `k = 0` maps to the zero pattern, and `2^e ≤ k < 2^(e+1)`
maps to exponent field `bias + e` and mantissa field `(k - 2^e)·2^(mb-e)`. -/
def floatBits (mb bias k : Nat) : Nat :=
  if k = 0 then 0
  else (bias + log2f k) * 2 ^ mb + (k - 2 ^ log2f k) * 2 ^ (mb - log2f k)

/-- The little-endian serialized bytes of the value `k` stored as dtype `d`:
two's-complement (here nonnegative) integers, IEEE-754 single/double floats,
and complex numbers as real part then zero imaginary part. -/
def encodeElem (d : Dtype) (k : Nat) : List Nat :=
  match d with
  | int8 | uint8 => leBytes 1 k
  | int16 | uint16 => leBytes 2 k
  | int32 | uint32 => leBytes 4 k
  | int64 | uint64 => leBytes 8 k
  | float32 => leBytes 4 (floatBits 23 127 k)
  | float64 => leBytes 8 (floatBits 52 1023 k)
  | complex64 => leBytes 4 (floatBits 23 127 k) ++ leBytes 4 0
  | complex128 => leBytes 8 (floatBits 52 1023 k) ++ leBytes 8 0

/-- The natural number denoted by a little-endian byte list. -/
def leVal (bs : List Nat) : Nat := bs.foldr (fun b acc => b + 256 * acc) 0

/-- The real value denoted by an IEEE-754 bit pattern with `mb` mantissa bits
and bias `bias`, for the zero pattern and normal numbers (the only patterns
the generator emits): `(2^mb + mantissa) · 2^exponentField / 2^(bias+mb)`. -/
def decFloat (mb bias bits : Nat) : ℚ :=
  if bits = 0 then 0
  else mkRat ((2 ^ mb + bits % 2 ^ mb) * 2 ^ (bits / 2 ^ mb) : Nat) (2 ^ (bias + mb))

/-- Reads back the (real, imaginary) value stored in the little-endian bytes
`bs` under dtype `d`: two's-complement decode for integers, IEEE decode for
floats, and a (real, imaginary) pair of floats for complex types. -/
def decodeElem (d : Dtype) (bs : List Nat) : ℚ × ℚ :=
  match d with
  | int8 => (signedVal 1 (leVal bs), 0)
  | int16 => (signedVal 2 (leVal bs), 0)
  | int32 => (signedVal 4 (leVal bs), 0)
  | int64 => (signedVal 8 (leVal bs), 0)
  | uint8 | uint16 | uint32 | uint64 => ((leVal bs : ℚ), 0)
  | float32 => (decFloat 23 127 (leVal bs), 0)
  | float64 => (decFloat 52 1023 (leVal bs), 0)
  | complex64 => (decFloat 23 127 (leVal (bs.take 4)), decFloat 23 127 (leVal (bs.drop 4)))
  | complex128 => (decFloat 52 1023 (leVal (bs.take 8)), decFloat 52 1023 (leVal (bs.drop 8)))
where
  /-- Two's-complement reading of a `w`-byte unsigned value. -/
  signedVal (w n : Nat) : ℚ :=
    if n < 2 ^ (8 * w - 1) then (n : ℚ) else (n : ℚ) - 2 ^ (8 * w)

/-- A saved `.npy` file: the version-1.0 header's metadata (dtype descriptor
string, fortran-order flag, shape) together with the raw element bytes that
follow the header. -/
structure NpyFile where
  descr : String
  fortran_order : Bool
  shape : List Nat
  payload : List Nat
deriving DecidableEq, Repr

/-- Models `np.save` (line 38).  The header records the dtype's descriptor
and the shape; `fortran_order` is set iff the array is F- but not
C-contiguous, which for the arrays this script builds is exactly the
`fortranOrder` flag (1-D arrays are C-contiguous, so theirs is false).  The
payload is the buffer serialized in memory order. -/
def npSave (a : NDArray) : NpyFile :=
  { descr := npDtypeStr a.dtype, fortran_order := a.fortranOrder,
    shape := a.shape, payload := a.buffer.flatMap (encodeElem a.dtype) }

/-- Python tuple repr of a shape, as numpy writes it in the header:
`(8,)` for 1-D, `(4, 2)` for 2-D. -/
def shapeRepr : List Nat → String
  | [n] => "(" ++ toString n ++ ",)"
  | [r, c] => "(" ++ toString r ++ ", " ++ toString c ++ ")"
  | _ => "()"

/-- The header dictionary literal numpy writes, with its keys in sorted
order (descr, fortran_order, shape) and a trailing comma-space. -/
def headerDict (f : NpyFile) : String :=
  "\x7b'descr': '" ++ f.descr ++ "', 'fortran_order': " ++
    (if f.fortran_order then "True" else "False") ++
    ", 'shape': " ++ shapeRepr f.shape ++ ", \x7d"

/-- The code points of a string as bytes (all header characters are ASCII). -/
def strBytes (s : String) : List Nat := s.toList.map Char.toNat

/-- A 16-bit little-endian length field. -/
def le16 (n : Nat) : List Nat := [n % 256, n / 256 % 256]

/-- The bytes of a version-1.0 `.npy` file: the magic string `\x93NUMPY`,
version bytes (1,0), the little-endian header length, the header dictionary
padded with spaces and terminated by a newline so the total header size is a
multiple of 64, then the raw element bytes. -/
def serializeNpy (f : NpyFile) : List Nat :=
  let dict := headerDict f
  let hlen := dict.length + 1
  let padlen := 64 - (8 + 2 + hlen) % 64
  [147, 78, 85, 77, 80, 89] ++ [1, 0] ++ le16 (hlen + padlen) ++
    strBytes dict ++ List.replicate padlen 32 ++ [10] ++ f.payload

/-- The `(dims, order)` pairs in loop order (lines 27–28): `dims` outer
(1 then 2), `order` inner (C then F). -/
def dims_order_pairs : List (Nat × String) := [(1, "C"), (1, "F"), (2, "C"), (2, "F")]

/-- The filename `f"\x7bdtype_str\x7d_\x7bii\x7d.npy"` (line 37). -/
def fileName (d : Dtype) (ii : Nat) : String :=
  dtype_str d ++ "_" ++ toString ii ++ ".npy"

/-- The four (filename, file) pairs one dtype's inner loops write, in write
order: the counter `ii` starts at 1 (line 25) and increments per write
(line 39). -/
def entriesFor (d : Dtype) : List (String × NpyFile) :=
  (List.enumFrom 1 dims_order_pairs).map
    (fun p => (fileName d p.1, npSave (makeArray d p.2.1 p.2.2)))

/-- All 48 (filename, file) pairs of one full run, in write order
(lines 24–39). -/
def allEntries : List (String × NpyFile) := dtype_list.flatMap entriesFor

/-- The state of the output directory: whether it exists, and its files as
(name, content) pairs in creation order. -/
structure FS where
  dirExists : Bool
  files : List (String × NpyFile)
deriving DecidableEq, Repr

/-- Writing a named file: overwrites the existing entry of that name, or
appends a new one. -/
def setFile (files : List (String × NpyFile)) (n : String) (f : NpyFile) :
    List (String × NpyFile) :=
  if files.any (fun p => p.1 == n) then
    files.map (fun p => if p.1 == n then (n, f) else p)
  else files ++ [(n, f)]

/-- The filesystem's failure behavior for one run: whether directory
creation hits an unrecoverable error, and which file names fail to write. -/
structure FSEnv where
  mkdirFails : Bool
  writeFailNames : List String
deriving DecidableEq, Repr

/-- `output_dir.mkdir(exist_ok=True)` (line 6): succeeds whether or not the
directory already exists, erring only when the filesystem reports an
unrecoverable error. -/
def mkdirExistOk (env : FSEnv) (fs : FS) : Except String FS :=
  if env.mkdirFails then Except.error "mkdir" else Except.ok { fs with dirExists := true }

/-- Performs the writes in order; the first failing write aborts the run,
leaving the files already written in place (`some name` reports the
propagated error). -/
def writeAll (env : FSEnv) (fs : FS) : List (String × NpyFile) → FS × Option String
  | [] => (fs, none)
  | e :: rest =>
      if env.writeFailNames.contains e.1 then (fs, some e.1)
      else writeAll env { fs with files := setFile fs.files e.1 e.2 } rest

/-- One full run of the script: create the directory, then perform the 48
writes in order.  An error (`some _`) propagates unhandled and ends the run. -/
def run (env : FSEnv) (fs : FS) : FS × Option String :=
  match mkdirExistOk env fs with
  | Except.error e => (fs, some e)
  | Except.ok fs1 => writeAll env fs1 allEntries

/-- A failure-free filesystem. -/
def env0 : FSEnv := { mkdirFails := false, writeFailNames := [] }

/-- An empty initial state: no directory, no files. -/
def fs0 : FS := { dirExists := false, files := [] }

/-- The directory state after one failure-free run from the empty state. -/
def runResult : FS := (run env0 fs0).1

/-- Row `i` of a (4,2) array as a list. -/
def rowOf (a : NDArray) (i : Nat) : List Nat :=
  (List.range 2).map (fun j => (a.at2 i j).getD 0)

/-- Column `j` of a (4,2) array as a list. -/
def colOf (a : NDArray) (j : Nat) : List Nat :=
  (List.range 4).map (fun i => (a.at2 i j).getD 0)

/-- The content of the named file in a directory state, when present. -/
def getFile (fs : FS) (n : String) : Option NpyFile := List.lookup n fs.files

/-- Folding a list of writes into a file listing. -/
def applyWrites (files : List (String × NpyFile)) (l : List (String × NpyFile)) :
    List (String × NpyFile) :=
  l.foldl (fun acc p => setFile acc p.1 p.2) files

/-- The write loop stops at the first failing name, leaving exactly the files
written before it: if no name of `pre` fails and `e.1` fails, the run's state
keeps `pre`'s writes and reports `e.1`. -/
theorem writeAll_first_failure (env : FSEnv) (pre : List (String × NpyFile))
    (e : String × NpyFile) (post : List (String × NpyFile)) (fs : FS)
    (hpre : ∀ p ∈ pre, env.writeFailNames.contains p.1 = false)
    (he : env.writeFailNames.contains e.1 = true) :
    writeAll env fs (pre ++ e :: post) =
      ({ fs with files := applyWrites fs.files pre }, some e.1) := by
  induction pre generalizing fs with
  | nil =>
      have hstep : writeAll env fs ([] ++ e :: post) =
          if env.writeFailNames.contains e.1 = true then (fs, some e.1)
          else writeAll env { fs with files := setFile fs.files e.1 e.2 } post := rfl
      rw [hstep, if_pos he]
      rfl
  | cons p pre ih =>
      have hp : env.writeFailNames.contains p.1 = false := hpre p (List.mem_cons_self p pre)
      simp only [List.cons_append, writeAll, hp, Bool.false_eq_true, if_false,
        applyWrites, List.foldl_cons]
      exact ih _ (fun q hq => hpre q (List.mem_cons_of_mem p hq))

/-- A failure-free write loop performs every write and reports no error. -/
theorem writeAll_no_failure (env : FSEnv) (l : List (String × NpyFile)) (fs : FS)
    (hl : ∀ p ∈ l, env.writeFailNames.contains p.1 = false) :
    writeAll env fs l = ({ fs with files := applyWrites fs.files l }, none) := by
  induction l generalizing fs with
  | nil => simp [writeAll, applyWrites]
  | cons p l ih =>
      have hp : env.writeFailNames.contains p.1 = false := hl p (List.mem_cons_self p l)
      simp only [writeAll, hp, Bool.false_eq_true, if_false, applyWrites, List.foldl_cons]
      exact ih _ (fun q hq => hl q (List.mem_cons_of_mem p hq))

set_option maxRecDepth 20000 in
/-- C1, counterexample.  The claim says `X_1.npy` does not persist after a
run, being overwritten by the second dims=1 pass.  It is false: after one
failure-free run from an empty directory, `i1_1.npy` (ElementType int8,
index 1) is present, because the second dims=1 pass writes to `i1_2.npy`,
a different name. -/
theorem C1_counterexample : (getFile runResult "i1_1.npy").isSome = true := by decide

set_option maxRecDepth 20000 in
/-- C1, amended.  After one full run, for every ElementType with dtype code
X, exactly the files `X_1.npy`, `X_2.npy`, `X_3.npy` and `X_4.npy` exist in
the output directory — `X_1.npy` persists, since the second dims=1 pass
writes `X_2.npy` rather than overwriting `X_1.npy`: the directory's file
names are exactly the 48 names `{code}_{1..4}.npy`, pairwise distinct, and
each type's index-1 file is present. -/
theorem C1_amended_exact_files :
    runResult.files.map Prod.fst =
      dtype_list.flatMap (fun d => [fileName d 1, fileName d 2, fileName d 3, fileName d 4]) ∧
    (runResult.files.map Prod.fst).Nodup ∧
    (∀ d : Dtype, (getFile runResult (fileName d 1)).isSome = true) := by decide

set_option maxRecDepth 20000 in
/-- C2.  After one full run all 48 written files persist (48 entries with
pairwise-distinct names), and for every ElementType the two dims=1 files
(indices 1 and 2) serialize to byte-identical `.npy` content, giving the 12
byte-identical pairs. -/
theorem C2_all48_persist_dims1_pairs_identical :
    runResult.files.length = 48 ∧ (runResult.files.map Prod.fst).Nodup ∧
    ∀ d : Dtype, (getFile runResult (fileName d 1)).isSome = true ∧
      (getFile runResult (fileName d 1)).map serializeNpy =
        (getFile runResult (fileName d 2)).map serializeNpy := by decide

set_option maxRecDepth 10000 in
/-- C3.  For every ElementType, the dims=2 array under row-major layout has
rows [0,1], [2,3], [4,5], [6,7] (linear index k at position (k / 2, k % 2)),
and under column-major layout has columns [0,1,2,3] and [4,5,6,7] (linear
index k at position (k % 4, k / 4)). -/
theorem C3_dims2_layout_positions :
    ∀ d : Dtype,
      rowOf (makeArray d 2 "C") 0 = [0, 1] ∧ rowOf (makeArray d 2 "C") 1 = [2, 3] ∧
      rowOf (makeArray d 2 "C") 2 = [4, 5] ∧ rowOf (makeArray d 2 "C") 3 = [6, 7] ∧
      colOf (makeArray d 2 "F") 0 = [0, 1, 2, 3] ∧ colOf (makeArray d 2 "F") 1 = [4, 5, 6, 7] ∧
      ∀ k : Fin 8, (makeArray d 2 "C").at2 ((k : Nat) / 2) ((k : Nat) % 2) = some (k : Nat) ∧
        (makeArray d 2 "F").at2 ((k : Nat) % 4) ((k : Nat) / 4) = some (k : Nat) := by decide

/-- C4.  For every ElementType, the dims=1 array is identical under both
requested layouts (layout is a no-op for 1-D), has length-8 shape, and its
elements in order are exactly [0,1,2,3,4,5,6,7]. -/
theorem C4_dims1_layout_noop :
    ∀ d : Dtype, makeArray d 1 "C" = makeArray d 1 "F" ∧
      (makeArray d 1 "C").shape = [8] ∧
      (makeArray d 1 "C").buffer = [0, 1, 2, 3, 4, 5, 6, 7] := by decide

set_option maxRecDepth 10000 in
/-- C5.  For every ElementType, both dims values and both layouts, the set
of element values in the produced array (ignoring position) is exactly
{0,...,7}, and the array's elements are a permutation of the base sequence:
the reshape step never changes which values are present, only their
arrangement. -/
theorem C5_value_set_invariant (d : Dtype) (dims : Nat) (order : String)
    (hd : dims = 1 ∨ dims = 2) (ho : order = "C" ∨ order = "F") :
    (makeArray d dims order).elems.toFinset = Finset.range 8 ∧
    (makeArray d dims order).elems.Perm (arange8 d).buffer := by
  rcases hd with rfl | rfl <;> rcases ho with rfl | rfl <;> revert d <;> decide

/-- C5 at a concrete input: the complex128 dims=2 column-major array. -/
theorem C5_value_set_invariant_witness :
    (makeArray Dtype.complex128 2 "F").elems.toFinset = Finset.range 8 ∧
    (makeArray Dtype.complex128 2 "F").elems.Perm (arange8 Dtype.complex128).buffer :=
  C5_value_set_invariant Dtype.complex128 2 "F" (Or.inr rfl) (Or.inr rfl)

/-- C6.  The dtype code of each of the 12 ElementTypes is its one-character
kind tag (i, u, f or c) followed by its byte width in decimal — in source
order the codes are i1,i2,i4,i8,u1,u2,u4,u8,f4,f8,c8,c16, with int32 → "i4"
and complex128 → "c16" — and the k-th (dims, layout) pair in the fixed
iteration order (dims outer 1 then 2, layout inner C then F) is written to
`{code}_{k}.npy` with k starting at 1 per ElementType; in particular index 3
holds the (dims=2, row-major) array and index 4 the (dims=2, column-major)
array. -/
theorem C6_dtype_codes_and_index_order :
    dtype_list.map dtype_str =
      ["i1", "i2", "i4", "i8", "u1", "u2", "u4", "u8", "f4", "f8", "c8", "c16"] ∧
    dtype_str Dtype.int32 = "i4" ∧ dtype_str Dtype.complex128 = "c16" ∧
    (∀ d : Dtype, dtype_str d = kindStr d ++ toString (itemsize d)) ∧
    (∀ d : Dtype, (entriesFor d).map Prod.fst =
      [fileName d 1, fileName d 2, fileName d 3, fileName d 4]) ∧
    (∀ d : Dtype,
      List.lookup (fileName d 3) (entriesFor d) = some (npSave (makeArray d 2 "C")) ∧
      List.lookup (fileName d 4) (entriesFor d) = some (npSave (makeArray d 2 "F"))) := by decide

set_option maxRecDepth 40000 in
/-- C7.  The generator takes no input and is deterministic; running it twice
in succession is idempotent: the first run from an empty directory succeeds
and yields `runResult`, and a second run over that state writes byte-identical
content to the same file names, leaving the directory state unchanged. -/
theorem C7_second_run_idempotent :
    run env0 fs0 = (runResult, none) ∧
    run env0 runResult = (runResult, none) := by decide

set_option exponentiation.threshold 3000 in
set_option maxRecDepth 10000 in
/-- C8.  For every ElementType the base sequence holds the 8 consecutive
integers 0..7, and each value round-trips exactly through that type's byte
encoding: decoding the encoded bytes yields the value back, with zero
imaginary part (for complex types the imaginary component is stored as
zero). -/
theorem C8_base_sequence_exact_roundtrip :
    ∀ d : Dtype, (arange8 d).buffer = List.range 8 ∧
      ∀ k : Fin 8, decodeElem d (encodeElem d (k : Nat)) = (((k : Nat) : ℚ), 0) := by decide

/-- C9.  Creating the output directory succeeds whether or not it already
exists (pre-existence is not an error): with no filesystem fault it returns
the state with the directory present, for any prior `dirExists` value.  It
fails only on an unrecoverable filesystem error, which propagates and aborts
the run with no file written.  Likewise a failing write aborts the run
immediately, with the error propagated and the files of all earlier
iterations left on disk. -/
theorem C9_mkdir_and_failure_semantics :
    (∀ (ws : List String) (fs : FS),
        mkdirExistOk ⟨false, ws⟩ fs = Except.ok { fs with dirExists := true }) ∧
    (∀ (env : FSEnv) (fs : FS), env.mkdirFails = true → run env fs = (fs, some "mkdir")) ∧
    (∀ (env : FSEnv) (fs : FS) (pre : List (String × NpyFile)) (e : String × NpyFile)
        (post : List (String × NpyFile)),
        env.mkdirFails = false →
        allEntries = pre ++ e :: post →
        (∀ p ∈ pre, env.writeFailNames.contains p.1 = false) →
        env.writeFailNames.contains e.1 = true →
        run env fs = ({ dirExists := true, files := applyWrites fs.files pre }, some e.1)) := by
  refine ⟨fun ws fs => rfl, fun env fs h => ?_, fun env fs pre e post hm hsplit hpre he => ?_⟩
  · simp [run, mkdirExistOk, h]
  · have hrun : run env fs = writeAll env { fs with dirExists := true } allEntries := by
      simp [run, mkdirExistOk, hm]
    rw [hrun, hsplit, writeAll_first_failure env pre e post _ hpre he]

set_option maxRecDepth 20000 in
/-- C9 at concrete inputs: mkdir over the empty state, a run whose directory
creation fails (no file written), and a run whose fifth write (`i2_1.npy`)
fails, which keeps exactly the four int8 files written before it. -/
theorem C9_mkdir_and_failure_semantics_witness :
    mkdirExistOk ⟨false, []⟩ fs0 = Except.ok { fs0 with dirExists := true } ∧
    run ⟨true, []⟩ fs0 = (fs0, some "mkdir") ∧
    run ⟨false, ["i2_1.npy"]⟩ fs0 =
      ({ dirExists := true, files := applyWrites fs0.files (entriesFor Dtype.int8) },
        some "i2_1.npy") := by
  refine ⟨C9_mkdir_and_failure_semantics.1 [] fs0,
    C9_mkdir_and_failure_semantics.2.1 ⟨true, []⟩ fs0 rfl, ?_⟩
  exact C9_mkdir_and_failure_semantics.2.2 ⟨false, ["i2_1.npy"]⟩ fs0
    (entriesFor Dtype.int8)
    ("i2_1.npy", npSave (makeArray Dtype.int16 1 "C"))
    ((entriesFor Dtype.int16).drop 1 ++ (dtype_list.drop 2).flatMap entriesFor)
    rfl (by decide) (by decide) (by decide)

set_option maxRecDepth 20000 in
/-- C10.  For every ElementType, all four files written for that type carry
the same raw element payload — the values 0..7 serialized consecutively in
the type's little-endian encoding — and the same dtype descriptor: reshaping
with column-major order does not reorder the serialized element bytes.  The
four files differ only in the header's declared shape ((8,) for indices 1–2,
(4,2) for 3–4) and fortran-order flag (set only for index 4), and the two
dims=1 files are byte-identical in full. -/
theorem C10_same_payload_headers_differ :
    ∀ d : Dtype,
      (∀ i : Fin 4, (getFile runResult (fileName d ((i : Nat) + 1))).map NpyFile.payload =
          some ((List.range 8).flatMap (encodeElem d)) ∧
        (getFile runResult (fileName d ((i : Nat) + 1))).map NpyFile.descr =
          some (npDtypeStr d)) ∧
      (getFile runResult (fileName d 1)).map NpyFile.shape = some [8] ∧
      (getFile runResult (fileName d 2)).map NpyFile.shape = some [8] ∧
      (getFile runResult (fileName d 3)).map NpyFile.shape = some [4, 2] ∧
      (getFile runResult (fileName d 4)).map NpyFile.shape = some [4, 2] ∧
      (getFile runResult (fileName d 1)).map NpyFile.fortran_order = some false ∧
      (getFile runResult (fileName d 2)).map NpyFile.fortran_order = some false ∧
      (getFile runResult (fileName d 3)).map NpyFile.fortran_order = some false ∧
      (getFile runResult (fileName d 4)).map NpyFile.fortran_order = some true ∧
      (getFile runResult (fileName d 1)).map serializeNpy =
        (getFile runResult (fileName d 2)).map serializeNpy := by decide

end Testdata
